import Mathlib

/-!
Shallow embedding of the signing/authentication core of the Lightspark JS SDK
(wallet-sdk `client.ts`, the legacy `src/index.ts` wallet client, the stub and
account-token auth providers, and the generated object mappers), together with
proofs of the specified properties.

Conventions of the embedding:
* JavaScript values flowing through untyped JSON are modelled by the `Json`
  inductive; a TS `undefined` resulting from an out-of-enum lookup is modelled
  by `Option.none`.
* A thrown exception is modelled by `Except.error` carrying an `LsError`.
* An `async` function called without `await` (fire-and-forget) cannot raise in
  its caller: its rejection is appended to the `unhandled` list of the effect
  log and execution continues.
* Network I/O is recorded in the `network` list of the effect log; the server
  is a parameter mapping the sent request to its response.
-/

/-- Errors thrown by the SDK.  `authException` is `LightsparkAuthException`,
`lsException name msg` is `LightsparkException(name, msg)`, `jsError` is a
plain JavaScript `Error(msg)`, and `otherError` stands for an arbitrary
foreign error value (e.g. a transport error pushed into a subscription). -/
inductive LsError where
  | authException (msg : String)
  | lsException (name msg : String)
  | jsError (msg : String)
  | otherError (tag : String)
deriving DecidableEq

/-- Untyped JSON values as passed through the SDK's mappers. -/
inductive Json where
  | null
  | str (s : String)
  | num (n : Int)
  | bool (b : Bool)
  | arr (items : List Json)
  | obj (fields : List (String × Json))

/-- Field lookup on a JSON object: `obj[key]`, `Json.null` when absent
(a TS `undefined` read off a plain object behaves like an absent value
for the purposes of the mappers modelled here). -/
def Json.lookupField : List (String × Json) → String → Json
  | [], _ => .null
  | (k, v) :: rest, key => if k = key then v else Json.lookupField rest key

/-- `obj[key]` on a JSON value; non-objects have no fields. -/
def Json.getField : Json → String → Json
  | .obj fields, key => Json.lookupField fields key
  | _, _ => .null

/-- The elements of a JSON array (`.map` iterates over these). -/
def Json.asArr : Json → List Json
  | .arr items => items
  | _ => []

/-- `Array.prototype.includes` via decidable membership. -/
def jsIncludes {α : Type} [DecidableEq α] (l : List α) (x : α) : Bool :=
  decide (x ∈ l)

/-- `Array.prototype.join(", ")`. -/
def joinComma : List String → String
  | [] => ""
  | [x] => x
  | x :: y :: rest => x ++ ", " ++ joinComma (y :: rest)

/-! ## Enums

`TransactionStatus` and `WalletStatus` are imported by `client.ts` from
generated enum files that are not in the source tree.

Modelled from the spec: string enums carrying a `FUTURE_VALUE` sentinel
("Clients should support unknown values"); the members below are the ones the
spec and `client.ts` mention (terminal sets `SUCCESS`/`FAILED`/`CANCELLED`
for payments, `DEPLOYED`/`READY`/`FAILED` for wallets) plus representative
non-terminal members. -/

/-- Status of a payment transaction. -/
inductive TransactionStatus where
  | FUTURE_VALUE
  | PENDING
  | SUCCESS
  | FAILED
  | CANCELLED
deriving DecidableEq

/-- The string value of a `TransactionStatus` member (TS string enums
stringify to their value, which equals the member name). -/
def TransactionStatus.toName : TransactionStatus → String
  | .FUTURE_VALUE => "FUTURE_VALUE"
  | .PENDING => "PENDING"
  | .SUCCESS => "SUCCESS"
  | .FAILED => "FAILED"
  | .CANCELLED => "CANCELLED"

/-- Status of a wallet. -/
inductive WalletStatus where
  | FUTURE_VALUE
  | NOT_SETUP
  | DEPLOYING
  | DEPLOYED
  | INITIALIZING
  | READY
  | TERMINATING
  | TERMINATED
  | FAILED
deriving DecidableEq

/-- The string value of a `WalletStatus` member. -/
def WalletStatus.toName : WalletStatus → String
  | .FUTURE_VALUE => "FUTURE_VALUE"
  | .NOT_SETUP => "NOT_SETUP"
  | .DEPLOYING => "DEPLOYING"
  | .DEPLOYED => "DEPLOYED"
  | .INITIALIZING => "INITIALIZING"
  | .READY => "READY"
  | .TERMINATING => "TERMINATING"
  | .TERMINATED => "TERMINATED"
  | .FAILED => "FAILED"

/-- Modelled from the spec: `objects/KeyType.ts` is not in the source tree;
an enum with the `FUTURE_VALUE` sentinel plus representative members. -/
inductive KeyType where
  | FUTURE_VALUE
  | RSA_OAEP
  | ELLIPTIC_CURVE
deriving DecidableEq

/-- The forward lookup `KeyType[s]` of the TS string enum: `some` member for a
known value, `none` (TS `undefined`) otherwise. -/
def KeyType.fromString : String → Option KeyType
  | "FUTURE_VALUE" => some .FUTURE_VALUE
  | "RSA_OAEP" => some .RSA_OAEP
  | "ELLIPTIC_CURVE" => some .ELLIPTIC_CURVE
  | _ => none

/-- Modelled from the spec: `objects/BitcoinNetwork.ts` is not in the source
tree; an enum with the `FUTURE_VALUE` sentinel plus the standard networks. -/
inductive BitcoinNetwork where
  | FUTURE_VALUE
  | MAINNET
  | REGTEST
  | SIGNET
  | TESTNET
deriving DecidableEq

/-- The forward lookup `BitcoinNetwork[s]` of the TS string enum. -/
def BitcoinNetwork.fromString : String → Option BitcoinNetwork
  | "FUTURE_VALUE" => some .FUTURE_VALUE
  | "MAINNET" => some .MAINNET
  | "REGTEST" => some .REGTEST
  | "SIGNET" => some .SIGNET
  | "TESTNET" => some .TESTNET
  | _ => none

/-- Modelled from the spec: `objects/Permission.ts` is not in the source tree;
an enum with the `FUTURE_VALUE` sentinel plus representative members. -/
inductive Permission where
  | FUTURE_VALUE
  | ALL
  | MAINNET_VIEW
  | MAINNET_TRANSACT
  | MAINNET_MANAGE
  | TESTNET_VIEW
  | TESTNET_TRANSACT
  | TESTNET_MANAGE
  | VIEW
  | TRANSACT
  | MANAGE
deriving DecidableEq

/-- The forward lookup `Permission[s]` of the TS string enum. -/
def Permission.fromString : String → Option Permission
  | "FUTURE_VALUE" => some .FUTURE_VALUE
  | "ALL" => some .ALL
  | "MAINNET_VIEW" => some .MAINNET_VIEW
  | "MAINNET_TRANSACT" => some .MAINNET_TRANSACT
  | "MAINNET_MANAGE" => some .MAINNET_MANAGE
  | "TESTNET_VIEW" => some .TESTNET_VIEW
  | "TESTNET_TRANSACT" => some .TESTNET_TRANSACT
  | "TESTNET_MANAGE" => some .TESTNET_MANAGE
  | "VIEW" => some .VIEW
  | "TRANSACT" => some .TRANSACT
  | "MANAGE" => some .MANAGE
  | _ => none

/-- `Enum[s] ?? Enum.FUTURE_VALUE` applied to a JSON field value. -/
def enumOrFuture {α : Type} (fromString : String → Option α) (futureValue : α)
    (j : Json) : α :=
  match j with
  | .str s => (fromString s).getD futureValue
  | _ => futureValue

/-! ## Object mappers -/

/-- `KeyInput` from `packages/wallet-sdk/src/objects/KeyInput.ts`: untyped
fields are carried through as raw JSON (the TS `as KeyInput` cast does not
validate them). -/
structure KeyInput where
  type : KeyType
  publicKey : Json

/-- `KeyInputFromJson` from `packages/wallet-sdk/src/objects/KeyInput.ts`. -/
def KeyInputFromJson (obj : Json) : KeyInput :=
  { type := enumOrFuture KeyType.fromString KeyType.FUTURE_VALUE
      (obj.getField "key_input_type"),
    publicKey := obj.getField "key_input_public_key" }

/-- `CurrencyAmount` as produced by `CurrencyAmountFromJson`
(`objects/CurrencyAmount.ts` is not in the source tree); the mapped
sub-object is carried opaquely. -/
structure CurrencyAmount where
  raw : Json

/-- Modelled from the spec: `CurrencyAmountFromJson` (an external mapper
collaborator whose source is not in the tree) applied to the nested
`invoice_data_amount` object. -/
def CurrencyAmountFromJson (obj : Json) : CurrencyAmount :=
  { raw := obj }

/-- `InvoiceData` from `packages/wallet-sdk/src/objects/InvoiceData.ts`. -/
structure InvoiceData where
  encodedPaymentRequest : Json
  bitcoinNetwork : BitcoinNetwork
  paymentHash : Json
  amount : CurrencyAmount
  createdAt : Json
  expiresAt : Json
  typename : String
  memo : Json

/-- `InvoiceDataFromJson` from
`packages/wallet-sdk/src/objects/InvoiceData.ts`. -/
def InvoiceDataFromJson (obj : Json) : InvoiceData :=
  { encodedPaymentRequest := obj.getField "invoice_data_encoded_payment_request",
    bitcoinNetwork := enumOrFuture BitcoinNetwork.fromString
      BitcoinNetwork.FUTURE_VALUE (obj.getField "invoice_data_bitcoin_network"),
    paymentHash := obj.getField "invoice_data_payment_hash",
    amount := CurrencyAmountFromJson (obj.getField "invoice_data_amount"),
    createdAt := obj.getField "invoice_data_created_at",
    expiresAt := obj.getField "invoice_data_expires_at",
    typename := "InvoiceData",
    memo := obj.getField "invoice_data_memo" }

/-- `ApiToken` from `packages/lightspark-sdk/src/objects/ApiToken.ts`; an
element of `permissions` is `none` exactly when the TS array holds
`undefined` (the result of `Permission[e]` on an unknown value). -/
structure ApiToken where
  id : Json
  createdAt : Json
  updatedAt : Json
  clientId : Json
  name : Json
  permissions : List (Option Permission)
  typename : String

/-- `ApiTokenFromJson` from
`packages/lightspark-sdk/src/objects/ApiToken.ts`.  Note the permissions
mapping `obj["api_token_permissions"].map((e) => Permission[e])` has no
`?? FUTURE_VALUE` fallback. -/
def ApiTokenFromJson (obj : Json) : ApiToken :=
  { id := obj.getField "api_token_id",
    createdAt := obj.getField "api_token_created_at",
    updatedAt := obj.getField "api_token_updated_at",
    clientId := obj.getField "api_token_client_id",
    name := obj.getField "api_token_name",
    permissions := (obj.getField "api_token_permissions").asArr.map
      (fun e =>
        match e with
        | .str s => Permission.fromString s
        | _ => none),
    typename := "ApiToken" }

/-! ## Key cache

Modelled from the spec: `NodeKeyCache` lives in `packages/core` which is not
in the source tree.  Per spec section 4.1 it holds at most one decrypted key
per node id in memory; `loadKey(nodeId, keyMaterial)` stores the material
under `nodeId`, overwriting any prior entry, and never fails up front
(malformed material surfaces lazily at first signing use); `hasKey` is a pure
lookup. -/

/-- The in-memory key cache: an association of node ids to stored key
material, at most one entry per id. -/
abbrev KeyCache : Type := List (String × String)

/-- Modelled from the spec: `NodeKeyCache.loadKey` stores the material under
the id, overwriting any prior entry. -/
def loadKey (cache : KeyCache) (nodeId keyMaterial : String) : KeyCache :=
  (nodeId, keyMaterial) :: (cache : List (String × String)).filter
    (fun e => e.1 ≠ nodeId)

/-- Modelled from the spec: `NodeKeyCache.hasKey`, a pure lookup. -/
def hasKey (cache : KeyCache) (nodeId : String) : Bool :=
  (cache : List (String × String)).any (fun e => e.1 = nodeId)

/-- The key material stored under an id, if any. -/
def getKey (cache : KeyCache) (nodeId : String) : Option String :=
  ((cache : List (String × String)).find? (fun e => e.1 = nodeId)).map
    (fun e => e.2)

/-! ## Auth providers -/

/-- The polymorphic auth-provider capability: `stub` is `StubAuthProvider`
(`packages/core/src/auth/StubAuthProvider.ts`), `accountToken` is
`AccountTokenAuthProvider` (`packages/lightspark-sdk/src/auth/...`), and
`customJwt` is the JWT session variant (its source is not in the tree;
modelled from the spec, with `tokenStillValid` standing for the time-dependent
check `now < validUntil`). -/
inductive AuthProvider where
  | stub
  | accountToken (clientId clientSecret : String)
  | customJwt (tokenStillValid : Bool)
deriving DecidableEq

/-- `isAuthorized()`: the stub always answers `false`
(`StubAuthProvider.isAuthorized`), the account-token provider always answers
`true` (`AccountTokenAuthProvider.isAuthorized`), and the JWT provider
answers whether the session token is still valid. -/
def AuthProvider.isAuthorized : AuthProvider → Bool
  | .stub => false
  | .accountToken _ _ => true
  | .customJwt v => v

/-! ## Effect log and request execution -/

/-- A GraphQL request as handed to the Requester: the document constant, the
variables, and the optional signing-node marker. -/
structure QueryReq where
  payload : String
  vars : List (String × Json)
  signingNodeId : Option String

/-- The observable effects of one client call: the requests actually sent
over the network, and the rejections of fire-and-forget `async` calls that
no caller ever observes. -/
structure EffLog where
  network : List QueryReq
  unhandled : List LsError

/-- The empty effect log. -/
def emptyLog : EffLog := { network := [], unhandled := [] }

/-- Calling an `async` function without `await`: a rejection is recorded as
an unhandled promise rejection and execution continues; the caller never
sees the error. -/
def fireAndForget (r : Except LsError Unit) (log : EffLog) : EffLog :=
  match r with
  | .ok _ => log
  | .error e => { log with unhandled := log.unhandled ++ [e] }

/-- `LightsparkClient.requireValidAuth` (`client.ts`): throws
`LightsparkAuthException` when the auth provider is not authorized.  The
function is `async` in the source, so the throw materialises as a promise
rejection. -/
def requireValidAuth (auth : AuthProvider) : Except LsError Unit :=
  if auth.isAuthorized then .ok ()
  else .error (.authException "You must be logged in to perform this action.")

/-- Modelled from the spec: `Requester.executeQuery` lives in `packages/core`
which is not in the source tree.  Per spec section 4.4: if
`query.signingNodeId` is set, require `KeyCache.hasKey(id)`, else fail with
`AuthRequiredError` before any network call; otherwise send the request and
return the server's response (transport, GraphQL-error and mapping outcomes
are folded into the `server` parameter). -/
def executeQuery (cache : KeyCache) (q : QueryReq)
    (server : QueryReq → Except LsError Json) (log : EffLog) :
    Except LsError Json × EffLog :=
  match q.signingNodeId with
  | some nodeId =>
    if hasKey cache nodeId then
      (server q, { log with network := log.network ++ [q] })
    else
      (.error (.authException
        "Request requires a signing key but none was found in the key cache."),
       log)
  | none => (server q, { log with network := log.network ++ [q] })

/-! ## The wallet-sdk client (`packages/wallet-sdk/src/client.ts`) -/

/-- `WALLET_NODE_ID_KEY` from `client.ts`. -/
def WALLET_NODE_ID_KEY : String := "wallet_node_id"

/-- The mutable state of a `LightsparkClient`: its auth provider and the node
key cache shared with its Requester. -/
structure WalletClientState where
  authProvider : AuthProvider
  nodeKeyCache : KeyCache

namespace LightsparkClient

/-- `LightsparkClient.isAuthorized`. -/
def isAuthorized (c : WalletClientState) : Bool :=
  c.authProvider.isAuthorized

/-- `LightsparkClient.loadWalletSigningKey`: stores the key under the fixed
id `WALLET_NODE_ID_KEY`. -/
def loadWalletSigningKey (c : WalletClientState) (sigingKeyBytesPEM : String) :
    WalletClientState :=
  { c with nodeKeyCache :=
      loadKey c.nodeKeyCache WALLET_NODE_ID_KEY sigingKeyBytesPEM }

/-- `LightsparkClient.isWalletUnlocked`: queries the fixed id. -/
def isWalletUnlocked (c : WalletClientState) : Bool :=
  hasKey c.nodeKeyCache WALLET_NODE_ID_KEY

/-- `LightsparkClient.requireWalletUnlocked`: a synchronous throw (the method
is not `async`) when no key is cached under `WALLET_NODE_ID_KEY`. -/
def requireWalletUnlocked (c : WalletClientState) : Except LsError Unit :=
  if isWalletUnlocked c then .ok ()
  else .error (.authException
    "You must unlock the wallet before performing this action.")

/-- The request sent by `deployWallet` (no variables, no signing marker). -/
def deployWalletQuery : QueryReq :=
  { payload := "DeployWallet", vars := [], signingNodeId := none }

/-- `LightsparkClient.deployWallet`: fires `requireValidAuth()` without
`await` (its rejection is unhandled) and then executes the query. -/
def deployWallet (c : WalletClientState)
    (server : QueryReq → Except LsError Json) : Except LsError Json × EffLog :=
  let log := fireAndForget (requireValidAuth c.authProvider) emptyLog
  executeQuery c.nodeKeyCache deployWalletQuery server log

/-- The request sent by `getWalletDashboard`. -/
def walletDashboardQuery (numTransactions numPaymentRequests : Int) : QueryReq :=
  { payload := "WalletDashboardQuery",
    vars := [("numTransactions", .num numTransactions),
                  ("numPaymentRequests", .num numPaymentRequests)],
    signingNodeId := none }

/-- `LightsparkClient.getWalletDashboard`: fires `requireValidAuth()` without
`await` and executes the query (the mapping of the response into a
`WalletDashboard` is left to the caller-side mapper). -/
def getWalletDashboard (c : WalletClientState)
    (server : QueryReq → Except LsError Json)
    (numTransactions numPaymentRequests : Int) :
    Except LsError Json × EffLog :=
  let log := fireAndForget (requireValidAuth c.authProvider) emptyLog
  executeQuery c.nodeKeyCache
    (walletDashboardQuery numTransactions numPaymentRequests) server log

/-- The request sent by `payInvoice`: `amount_msats` is added to the
variables only when an amount is passed. -/
def payInvoiceQuery (encodedInvoice : String) (maxFeesMsats : Int)
    (amountMsats : Option Int) (timoutSecs : Int) : QueryReq :=
  { payload := "PayInvoiceMutation",
    vars := [("encoded_invoice", .str encodedInvoice),
                  ("maximum_fees_msats", .num maxFeesMsats),
                  ("timeout_secs", .num timoutSecs)] ++
      (match amountMsats with
       | some a => [("amount_msats", .num a)]
       | none => []),
    signingNodeId := some WALLET_NODE_ID_KEY }

/-- `LightsparkClient.payInvoice`: fires `requireValidAuth()` without
`await`, then synchronously requires the wallet unlocked, then executes the
signed mutation; a `null` payment becomes `LightsparkException
"PaymentNullError"`. -/
def payInvoice (c : WalletClientState)
    (server : QueryReq → Except LsError Json) (encodedInvoice : String)
    (maxFeesMsats : Int) (amountMsats : Option Int) (timoutSecs : Int) :
    Except LsError Json × EffLog :=
  let log := fireAndForget (requireValidAuth c.authProvider) emptyLog
  match requireWalletUnlocked c with
  | .error e => (.error e, log)
  | .ok _ =>
    match executeQuery c.nodeKeyCache
        (payInvoiceQuery encodedInvoice maxFeesMsats amountMsats timoutSecs)
        server log with
    | (.ok .null, log2) =>
      (.error (.lsException "PaymentNullError" "Unknown error paying invoice"),
       log2)
    | other => other

/-- The request sent by `sendPayment`. -/
def sendPaymentQuery (destinationNodePublicKey : String)
    (amountMsats maxFeesMsats timeoutSecs : Int) : QueryReq :=
  { payload := "SendPaymentMutation",
    vars := [("destination_node_public_key", .str destinationNodePublicKey),
                  ("amount_msats", .num amountMsats),
                  ("maximum_fees_msats", .num maxFeesMsats),
                  ("timeout_secs", .num timeoutSecs)],
    signingNodeId := some WALLET_NODE_ID_KEY }

/-- `LightsparkClient.sendPayment`: same guard sequence as `payInvoice`. -/
def sendPayment (c : WalletClientState)
    (server : QueryReq → Except LsError Json)
    (destinationNodePublicKey : String)
    (amountMsats maxFeesMsats timeoutSecs : Int) :
    Except LsError Json × EffLog :=
  let log := fireAndForget (requireValidAuth c.authProvider) emptyLog
  match requireWalletUnlocked c with
  | .error e => (.error e, log)
  | .ok _ =>
    match executeQuery c.nodeKeyCache
        (sendPaymentQuery destinationNodePublicKey amountMsats maxFeesMsats
          timeoutSecs) server log with
    | (.ok .null, log2) =>
      (.error (.lsException "PaymentNullError" "Unknown error sending payment"),
       log2)
    | other => other

/-- The request sent by `createBitcoinFundingAddress`. -/
def createBitcoinFundingAddressQuery : QueryReq :=
  { payload := "CreateBitcoinFundingAddress", vars := [],
    signingNodeId := some WALLET_NODE_ID_KEY }

/-- `LightsparkClient.createBitcoinFundingAddress`: fires
`requireValidAuth()` without `await`, synchronously requires the wallet
unlocked, then executes the signed query. -/
def createBitcoinFundingAddress (c : WalletClientState)
    (server : QueryReq → Except LsError Json) :
    Except LsError Json × EffLog :=
  let log := fireAndForget (requireValidAuth c.authProvider) emptyLog
  match requireWalletUnlocked c with
  | .error e => (.error e, log)
  | .ok _ =>
    executeQuery c.nodeKeyCache createBitcoinFundingAddressQuery server log

/-- The request sent by `requestWithdrawal`. -/
def requestWithdrawalQuery (amountSats : Int) (bitcoinAddress : String) :
    QueryReq :=
  { payload := "RequestWithdrawalMutation",
    vars := [("amount_sats", .num amountSats),
                  ("bitcoin_address", .str bitcoinAddress)],
    signingNodeId := some WALLET_NODE_ID_KEY }

/-- `LightsparkClient.requestWithdrawal`: same guard sequence as
`createBitcoinFundingAddress`. -/
def requestWithdrawal (c : WalletClientState)
    (server : QueryReq → Except LsError Json) (amountSats : Int)
    (bitcoinAddress : String) : Except LsError Json × EffLog :=
  let log := fireAndForget (requireValidAuth c.authProvider) emptyLog
  match requireWalletUnlocked c with
  | .error e => (.error e, log)
  | .ok _ =>
    executeQuery c.nodeKeyCache
      (requestWithdrawalQuery amountSats bitcoinAddress) server log

/-- The request sent by `initializeWallet`. -/
def initializeWalletQuery (keyType : KeyType) (signingPublicKey : String) :
    QueryReq :=
  { payload := "InitializeWallet",
    vars := [("key_type", .str (match keyType with
                    | .FUTURE_VALUE => "FUTURE_VALUE"
                    | .RSA_OAEP => "RSA_OAEP"
                    | .ELLIPTIC_CURVE => "ELLIPTIC_CURVE")),
                  ("signing_public_key", .str signingPublicKey)],
    signingNodeId := some WALLET_NODE_ID_KEY }

/-- `LightsparkClient.initializeWallet`: fires `requireValidAuth()` without
`await`, awaits `loadWalletSigningKey(signingPrivateKey)` (so the key cache
holds a key under `WALLET_NODE_ID_KEY` by the time the signed query
executes), then executes the signed mutation.  Returns the updated client
state along with the result. -/
def initializeWallet (c : WalletClientState)
    (server : QueryReq → Except LsError Json) (keyType : KeyType)
    (signingPublicKey signingPrivateKey : String) :
    (Except LsError Json × WalletClientState) × EffLog :=
  let log := fireAndForget (requireValidAuth c.authProvider) emptyLog
  let c2 := loadWalletSigningKey c signingPrivateKey
  let r := executeQuery c2.nodeKeyCache
    (initializeWalletQuery keyType signingPublicKey) server log
  ((r.1, c2), r.2)

end LightsparkClient

/-! ## Status-await coordinator (`awaitPaymentResult` / `waitForWalletStatus`)

The coordinator is driven by its subscription callbacks and its timeout
timer.  An execution is a finite trace of `CoordEvent`s: the subscription's
pushes, error and completion notifications, interleaved with the firing of
the `setTimeout` timer.  The promise's settle-at-most-once semantics is
explicit: once `settled` is set, `resolve`/`reject` are no-ops.  The list
`log` records every settlement that actually takes effect, in order. -/

/-- One notification delivered by the subscription. -/
inductive SubEvent (σ : Type) where
  | next (s : σ)
  | err (e : LsError)
  | complete

/-- One event observed by a coordinator instance. -/
inductive CoordEvent (σ : Type) where
  | sub (ev : SubEvent σ)
  | timeoutFire

/-- A settled promise: resolved with a value or rejected with an error. -/
inductive Outcome (σ : Type) where
  | resolved (s : σ)
  | rejected (e : LsError)

/-- The coordinator's promise cell plus the history of effective
settlements. -/
structure CoordState (σ : Type) where
  settled : Option (Outcome σ)
  log : List (Outcome σ)

/-- Settle the promise (only ever called on an unsettled state). -/
def settleWith {σ : Type} (o : Outcome σ) (st : CoordState σ) : CoordState σ :=
  { settled := some o, log := st.log ++ [o] }

/-- One step of the coordinator, mirroring the `subscribe` handlers and the
timer callback in `client.ts`: `next` resolves on the first terminal state,
`error` rejects with the pushed error as-is, `complete` rejects with the
await error, the timer rejects with the timeout error; all of them are
no-ops once the promise is settled. -/
def coordStep {σ : Type} (isTerm : σ → Bool) (completeErr timeoutErr : LsError)
    (st : CoordState σ) (ev : CoordEvent σ) : CoordState σ :=
  match st.settled with
  | some _ => st
  | none =>
    match ev with
    | .sub (.next s) => if isTerm s then settleWith (.resolved s) st else st
    | .sub (.err e) => settleWith (.rejected e) st
    | .sub .complete => settleWith (.rejected completeErr) st
    | .timeoutFire => settleWith (.rejected timeoutErr) st

/-- Run a coordinator instance over a trace of events. -/
def runCoord {σ : Type} (isTerm : σ → Bool) (completeErr timeoutErr : LsError)
    (events : List (CoordEvent σ)) : CoordState σ :=
  events.foldl (coordStep isTerm completeErr timeoutErr)
    { settled := none, log := [] }

/-- The settlement an event produces when it reaches an unsettled promise. -/
def evSettle {σ : Type} (isTerm : σ → Bool) (completeErr timeoutErr : LsError) :
    CoordEvent σ → Option (Outcome σ)
  | .sub (.next s) => if isTerm s then some (.resolved s) else none
  | .sub (.err e) => some (.rejected e)
  | .sub .complete => some (.rejected completeErr)
  | .timeoutFire => some (.rejected timeoutErr)

/-- A resource-release action performed by the `result.finally` handler. -/
inductive CleanupAct where
  | clearTimer
  | unsubscribe
deriving DecidableEq

/-- The observable result of one coordinator instance: the settled outcome
(`none` would mean the promise never settled), whether the underlying
subscribe function was invoked, and the cleanup actions performed. -/
structure CoordRun (σ : Type) where
  outcome : Option (Outcome σ)
  subscribed : Bool
  cleanups : List CleanupAct

/-- The subscribing path of the coordinator: process the trace; the
`result.finally` handler runs exactly once per effective settlement and
performs `clearTimeout(timeout)` then `subscription.unsubscribe()`. -/
def subscribeRun {σ : Type} (isTerm : σ → Bool)
    (completeErr timeoutErr : LsError) (events : List (CoordEvent σ)) :
    CoordRun σ :=
  let st := runCoord isTerm completeErr timeoutErr events
  { outcome := st.settled,
    subscribed := true,
    cleanups := st.log.flatMap
      (fun _ => [CleanupAct.clearTimer, CleanupAct.unsubscribe]) }

/-- `OutgoingPayment` as mapped by `OutgoingPaymentFromJson`; only the
fields the coordinator inspects are carried. -/
structure OutgoingPayment where
  id : String
  status : TransactionStatus
deriving DecidableEq

/-- The `completionStatuses` array of `awaitPaymentResult`, in source
order. -/
def completionStatuses : List TransactionStatus :=
  [.FAILED, .CANCELLED, .SUCCESS]

/-- The timeout rejection message of `awaitPaymentResult`
(interpolating `completionStatuses.join(", ")`). -/
def paymentTimeoutMsg : String :=
  "Timed out waiting for payment status to be one of " ++
    joinComma (completionStatuses.map TransactionStatus.toName) ++ "."

/-- The timeout rejection of `awaitPaymentResult`. -/
def paymentAwaitTimeoutError : LsError :=
  .lsException "PaymentStatusAwaitError" paymentTimeoutMsg

/-- The completion-without-terminal rejection of `awaitPaymentResult`. -/
def paymentAwaitCompleteError : LsError :=
  .lsException "PaymentStatusAwaitError"
    "Payment status subscription completed without receiving a completed status update."

/-- The membership check `completionStatuses.includes(payment.status)`. -/
def paymentIsTerminal (p : OutgoingPayment) : Bool :=
  jsIncludes completionStatuses p.status

/-- The coordinator state of `awaitPaymentResult`'s subscription run over a
trace of events. -/
def paymentCoord (events : List (CoordEvent OutgoingPayment)) :
    CoordState OutgoingPayment :=
  runCoord paymentIsTerminal paymentAwaitCompleteError paymentAwaitTimeoutError
    events

/-- The settlement an event produces in `awaitPaymentResult`'s run. -/
def paymentEvSettle (ev : CoordEvent OutgoingPayment) :
    Option (Outcome OutgoingPayment) :=
  evSettle paymentIsTerminal paymentAwaitCompleteError paymentAwaitTimeoutError
    ev

/-- `LightsparkClient.awaitPaymentResult`: if the payment's current status is
already in `completionStatuses`, return `Promise.resolve(payment)` without
subscribing; otherwise subscribe to the payment-status subscription and run
the coordinator over the event trace. -/
def awaitPaymentResult (payment : OutgoingPayment)
    (events : List (CoordEvent OutgoingPayment)) : CoordRun OutgoingPayment :=
  if paymentIsTerminal payment then
    { outcome := some (.resolved payment), subscribed := false, cleanups := [] }
  else
    subscribeRun paymentIsTerminal paymentAwaitCompleteError
      paymentAwaitTimeoutError events

/-- The timeout rejection message of `waitForWalletStatus`
(interpolating `statuses.join(", ")`). -/
def walletTimeoutMsg (statuses : List WalletStatus) : String :=
  "Timed out waiting for wallet status to be one of " ++
    joinComma (statuses.map WalletStatus.toName) ++ "."

/-- The completion-without-terminal rejection of `waitForWalletStatus`. -/
def walletAwaitCompleteError : LsError :=
  .lsException "WalletStatusAwaitError"
    "Wallet status subscription completed without receiving a status update."

/-- The membership check `statuses.includes(status)`. -/
def walletIsTerminal (statuses : List WalletStatus) (s : WalletStatus) : Bool :=
  jsIncludes statuses s

/-- The timeout rejection of `waitForWalletStatus`. -/
def walletTimeoutError (statuses : List WalletStatus) : LsError :=
  .lsException "WalletStatusAwaitError" (walletTimeoutMsg statuses)

/-- The coordinator state of `waitForWalletStatus`'s subscription run over a
trace of events. -/
def walletCoord (statuses : List WalletStatus)
    (events : List (CoordEvent WalletStatus)) : CoordState WalletStatus :=
  runCoord (walletIsTerminal statuses) walletAwaitCompleteError
    (walletTimeoutError statuses) events

/-- The settlement an event produces in `waitForWalletStatus`'s run. -/
def walletEvSettle (statuses : List WalletStatus)
    (ev : CoordEvent WalletStatus) : Option (Outcome WalletStatus) :=
  evSettle (walletIsTerminal statuses) walletAwaitCompleteError
    (walletTimeoutError statuses) ev

/-- `LightsparkClient.waitForWalletStatus`: always subscribes to the
wallet-status subscription and runs the coordinator over the event trace. -/
def waitForWalletStatus (statuses : List WalletStatus)
    (events : List (CoordEvent WalletStatus)) : CoordRun WalletStatus :=
  subscribeRun (walletIsTerminal statuses) walletAwaitCompleteError
    (walletTimeoutError statuses) events

/-- A wallet as mapped from a deploy/initialize mutation response; only the
fields the await helpers inspect are carried. -/
structure Wallet where
  id : String
  status : WalletStatus
deriving DecidableEq

/-- The continuation of `LightsparkClient.deployWalletAndAwaitDeployed` once
`deployWallet()` has produced its response `wallet`: if
`wallet?.status === DEPLOYED || wallet?.status === FAILED`, return the status
without invoking `waitForWalletStatus`; otherwise wait for
`[DEPLOYED, FAILED]`. -/
def deployWalletAndAwaitDeployed (wallet : Option Wallet)
    (events : List (CoordEvent WalletStatus)) : CoordRun WalletStatus :=
  match wallet with
  | some w =>
    if w.status = .DEPLOYED ∨ w.status = .FAILED then
      { outcome := some (.resolved w.status), subscribed := false,
        cleanups := [] }
    else waitForWalletStatus [.DEPLOYED, .FAILED] events
  | none => waitForWalletStatus [.DEPLOYED, .FAILED] events

/-- The continuation of `LightsparkClient.initializeWalletAndAwaitReady` once
`initializeWallet(...)` has produced its response `wallet`: if
`wallet?.status === READY || wallet?.status === FAILED`, return the status
without invoking `waitForWalletStatus`; otherwise wait for
`[READY, FAILED]`. -/
def initializeWalletAndAwaitReady (wallet : Option Wallet)
    (events : List (CoordEvent WalletStatus)) : CoordRun WalletStatus :=
  match wallet with
  | some w =>
    if w.status = .READY ∨ w.status = .FAILED then
      { outcome := some (.resolved w.status), subscribed := false,
        cleanups := [] }
    else waitForWalletStatus [.READY, .FAILED] events
  | none => waitForWalletStatus [.READY, .FAILED] events

/-! ## The legacy wallet client (`src/index.ts`) -/

/-- The encrypted signing key recovered from the server
(`encrypted_signing_private_key` of a `LightsparkNode`). -/
structure EncryptedKey where
  encryptedValue : String
  cipher : String

/-- The mutable state of a `LightsparkWalletClient`: its node key cache and
the active wallet id. -/
structure LegacyClientState where
  nodeKeyCache : KeyCache
  activeWalletId : Option String
deriving DecidableEq

/-- The character table of standard base64. -/
def base64Char (n : Nat) : Char :=
  "ABCDEFGHIJKLMNOPQRSTUVWXYZabcdefghijklmnopqrstuvwxyz0123456789+/".data.getD
    n 'A'

/-- Modelled from the spec: `b64encode` (`src/utils/base64.ts`, not in the
source tree) is standard base64 encoding of a byte sequence, with `=`
padding. -/
def b64encode : List Nat → String
  | [] => ""
  | [b1] =>
    String.mk [base64Char (b1 / 4 % 64), base64Char (b1 % 4 * 16), '=', '=']
  | [b1, b2] =>
    String.mk [base64Char (b1 / 4 % 64),
      base64Char (b1 % 4 * 16 + b2 / 16 % 16), base64Char (b2 % 16 * 4), '=']
  | b1 :: b2 :: b3 :: rest =>
    String.mk [base64Char (b1 / 4 % 64),
      base64Char (b1 % 4 * 16 + b2 / 16 % 16),
      base64Char (b2 % 16 * 4 + b3 / 64 % 4),
      base64Char (b3 % 64)] ++ b64encode rest

namespace LightsparkWalletClient

/-- `LightsparkWalletClient.requireWalletId`: throws a plain
`Error("No active wallet")` when no wallet is active. -/
def requireWalletId (st : LegacyClientState) : Except LsError String :=
  match st.activeWalletId with
  | some w => .ok w
  | none => .error (.jsError "No active wallet")

/-- `LightsparkWalletClient.unlockWallet`.  The signing-key recovery query's
response is the `recoverResult` parameter (the network round-trip of
`recoverNodeSigningKey` does not touch client state);
`decryptSecretWithNodePassword` is the platform crypto collaborator
(`none` models its falsy result on a wrong password), and `textDecode` is
the platform `TextDecoder`.  A decrypted byte sequence whose first byte is
`48` (`0x30`) is re-encoded with `b64encode`; otherwise it is decoded as
UTF-8 text.  The key cache and active wallet id are written only on the
successful path. -/
def unlockWallet (st : LegacyClientState) (walletId password : String)
    (recoverResult : Option EncryptedKey)
    (decryptSecretWithNodePassword : String → String → String → Option (List Nat))
    (textDecode : List Nat → String) :
    Except LsError Bool × LegacyClientState :=
  match recoverResult with
  | none => (.ok false, st)
  | some encryptedKey =>
    match decryptSecretWithNodePassword encryptedKey.cipher
        encryptedKey.encryptedValue password with
    | none =>
      (.error (.jsError
        "Unable to decrypt signing key with provided password. Please try again."),
       st)
    | some signingPrivateKey =>
      let signingPrivateKeyPEM :=
        if signingPrivateKey.head? = some 48 then b64encode signingPrivateKey
        else textDecode signingPrivateKey
      (.ok true,
       { nodeKeyCache := loadKey st.nodeKeyCache walletId signingPrivateKeyPEM,
         activeWalletId := some walletId })

/-- A mutation sent by the legacy client's Apollo transport, with the
signing-node-id header it carries. -/
structure LegacyMutation where
  payload : String
  nodeId : String
  encodedInvoice : String
  signingNodeIdHeader : String
deriving DecidableEq

/-- `LightsparkWalletClient.payInvoice`: requires an active wallet id, then
requires `nodeKeyCache.hasKey(walletId)` (throwing a plain
`Error("Wallet is not unlocked")` before any network call), then sends the
mutation with the `X-Lightspark-Signing-Node-Id` header set to the wallet
id; a truthy `outgoing_payment_failure_message` in the response is rethrown
as an `Error` with its rich text. -/
def payInvoice (st : LegacyClientState) (server : LegacyMutation → Json)
    (encodedInvoice : String) : Except LsError Unit × List LegacyMutation :=
  match requireWalletId st with
  | .error e => (.error e, [])
  | .ok walletId =>
    if hasKey st.nodeKeyCache walletId then
      let req : LegacyMutation :=
        { payload := "PayInvoice", nodeId := walletId,
          encodedInvoice := encodedInvoice, signingNodeIdHeader := walletId }
      let fm := ((server req).getField "pay_invoice").getField "payment"
        |>.getField "outgoing_payment_failure_message"
      match fm with
      | .null => (.ok (), [req])
      | j =>
        (.error (.jsError
          (match j.getField "rich_text_text" with
           | .str s => s
           | _ => "")), [req])
    else (.error (.jsError "Wallet is not unlocked"), [])

end LightsparkWalletClient

/-! ## Helper lemmas -/

theorem coordStep_of_settled {σ : Type} (isTerm : σ → Bool)
    (ce te : LsError) (st : CoordState σ) (ev : CoordEvent σ)
    (h : st.settled.isSome) : coordStep isTerm ce te st ev = st := by
  unfold coordStep
  cases hs : st.settled with
  | none => rw [hs] at h; simp at h
  | some o => simp

theorem foldl_coordStep_of_settled {σ : Type} (isTerm : σ → Bool)
    (ce te : LsError) (events : List (CoordEvent σ)) (st : CoordState σ)
    (h : st.settled.isSome) :
    events.foldl (coordStep isTerm ce te) st = st := by
  induction events with
  | nil => rfl
  | cons e rest ih =>
    simp only [List.foldl_cons, coordStep_of_settled isTerm ce te st e h, ih]

theorem coordStep_none_settles {σ : Type} (isTerm : σ → Bool)
    (ce te : LsError) (l : List (Outcome σ)) (ev : CoordEvent σ)
    (o : Outcome σ) (h : evSettle isTerm ce te ev = some o) :
    coordStep isTerm ce te { settled := none, log := l } ev
      = { settled := some o, log := l ++ [o] } := by
  cases ev with
  | timeoutFire =>
    simp only [evSettle, Option.some.injEq] at h
    simp [coordStep, settleWith, h]
  | sub sev =>
    cases sev with
    | next s =>
      by_cases ht : isTerm s
      · simp only [evSettle, ht, if_true, Option.some.injEq] at h
        simp [coordStep, settleWith, ht, h]
      · simp [evSettle, ht] at h
    | err e =>
      simp only [evSettle, Option.some.injEq] at h
      simp [coordStep, settleWith, h]
    | complete =>
      simp only [evSettle, Option.some.injEq] at h
      simp [coordStep, settleWith, h]

theorem coordStep_none_skips {σ : Type} (isTerm : σ → Bool)
    (ce te : LsError) (l : List (Outcome σ)) (ev : CoordEvent σ)
    (h : evSettle isTerm ce te ev = none) :
    coordStep isTerm ce te { settled := none, log := l } ev
      = { settled := none, log := l } := by
  cases ev with
  | timeoutFire => simp [evSettle] at h
  | sub sev =>
    cases sev with
    | next s =>
      by_cases ht : isTerm s
      · simp [evSettle, ht] at h
      · simp [coordStep, ht]
    | err e => simp [evSettle] at h
    | complete => simp [evSettle] at h

theorem foldl_coordStep_skips {σ : Type} (isTerm : σ → Bool)
    (ce te : LsError) (pre : List (CoordEvent σ)) (l : List (Outcome σ))
    (h : ∀ ev ∈ pre, evSettle isTerm ce te ev = none) :
    pre.foldl (coordStep isTerm ce te) { settled := none, log := l }
      = { settled := none, log := l } := by
  induction pre with
  | nil => rfl
  | cons e rest ih =>
    have he : evSettle isTerm ce te e = none := h e (List.mem_cons_self e rest)
    simp only [List.foldl_cons, coordStep_none_skips isTerm ce te l e he]
    exact ih (fun ev hev => h ev (List.mem_cons_of_mem e hev))

theorem runCoord_first_settlement {σ : Type} (isTerm : σ → Bool)
    (ce te : LsError) (pre post : List (CoordEvent σ)) (ev : CoordEvent σ)
    (o : Outcome σ) (hpre : ∀ e ∈ pre, evSettle isTerm ce te e = none)
    (ho : evSettle isTerm ce te ev = some o) :
    runCoord isTerm ce te (pre ++ ev :: post)
      = { settled := some o, log := [o] } := by
  unfold runCoord
  rw [List.foldl_append, foldl_coordStep_skips isTerm ce te pre [] hpre]
  simp only [List.foldl_cons, coordStep_none_settles isTerm ce te [] ev o ho,
    List.nil_append]
  exact foldl_coordStep_of_settled isTerm ce te post _ rfl

theorem foldl_coordStep_isSome {σ : Type} (isTerm : σ → Bool)
    (ce te : LsError) (events : List (CoordEvent σ)) (st : CoordState σ)
    (h : st.settled.isSome) :
    ((events.foldl (coordStep isTerm ce te) st).settled).isSome := by
  rw [foldl_coordStep_of_settled isTerm ce te events st h]; exact h

theorem coordStep_timeout_isSome {σ : Type} (isTerm : σ → Bool)
    (ce te : LsError) (st : CoordState σ) :
    ((coordStep isTerm ce te st CoordEvent.timeoutFire).settled).isSome := by
  obtain ⟨settled, log⟩ := st
  cases settled <;> simp [coordStep, settleWith]

theorem foldl_coordStep_isSome_of_timeout {σ : Type} (isTerm : σ → Bool)
    (ce te : LsError) (events : List (CoordEvent σ)) (st : CoordState σ)
    (h : CoordEvent.timeoutFire ∈ events) :
    ((events.foldl (coordStep isTerm ce te) st).settled).isSome := by
  induction events generalizing st with
  | nil => simp at h
  | cons e rest ih =>
    rcases List.mem_cons.mp h with he | hrest
    · subst he
      rw [List.foldl_cons]
      exact foldl_coordStep_isSome isTerm ce te rest _
        (coordStep_timeout_isSome isTerm ce te st)
    · rw [List.foldl_cons]
      exact ih _ hrest

theorem runCoord_isSome_of_timeout {σ : Type} (isTerm : σ → Bool)
    (ce te : LsError) (events : List (CoordEvent σ))
    (h : CoordEvent.timeoutFire ∈ events) :
    ((runCoord isTerm ce te events).settled).isSome :=
  foldl_coordStep_isSome_of_timeout isTerm ce te events _ h

theorem foldl_coordStep_log_inv {σ : Type} (isTerm : σ → Bool)
    (ce te : LsError) (events : List (CoordEvent σ)) (st : CoordState σ)
    (h : st.log = st.settled.toList) :
    (events.foldl (coordStep isTerm ce te) st).log
      = (events.foldl (coordStep isTerm ce te) st).settled.toList := by
  induction events generalizing st with
  | nil => exact h
  | cons e rest ih =>
    simp only [List.foldl_cons]
    apply ih
    cases hs : st.settled with
    | some o =>
      rw [coordStep_of_settled isTerm ce te st e (by rw [hs]; rfl)]
      exact h
    | none =>
      have hl : st.log = [] := by rw [h, hs]; rfl
      have hst : st = { settled := none, log := [] } := by
        cases st; simp_all
      rw [hst]
      cases ho : evSettle isTerm ce te e with
      | some o => rw [coordStep_none_settles isTerm ce te [] e o ho]; rfl
      | none => rw [coordStep_none_skips isTerm ce te [] e ho]; rfl

theorem runCoord_log_eq_settled {σ : Type} (isTerm : σ → Bool)
    (ce te : LsError) (events : List (CoordEvent σ)) :
    (runCoord isTerm ce te events).log
      = (runCoord isTerm ce te events).settled.toList :=
  foldl_coordStep_log_inv isTerm ce te events _ rfl

theorem runCoord_log_length_one {σ : Type} (isTerm : σ → Bool)
    (ce te : LsError) (events : List (CoordEvent σ))
    (h : CoordEvent.timeoutFire ∈ events) :
    (runCoord isTerm ce te events).log.length = 1 := by
  rw [runCoord_log_eq_settled]
  rcases Option.isSome_iff_exists.mp (runCoord_isSome_of_timeout isTerm ce te
    events h) with ⟨o, ho⟩
  rw [ho]
  rfl

theorem string_data_append (a b : String) :
    (a ++ b).data = a.data ++ b.data := rfl

theorem joinComma_contains (l : List String) (x : String) (hx : x ∈ l) :
    ∃ a b, (joinComma l).data = a ++ x.data ++ b := by
  induction l with
  | nil => simp at hx
  | cons y ys ih =>
    cases ys with
    | nil =>
      rcases List.mem_singleton.mp hx with rfl
      exact ⟨[], [], by simp [joinComma]⟩
    | cons z zs =>
      rcases List.mem_cons.mp hx with rfl | hmem
      · refine ⟨[], ", ".data ++ (joinComma (z :: zs)).data, ?_⟩
        simp [joinComma, string_data_append, List.append_assoc]
      · rcases ih hmem with ⟨a, b, hab⟩
        refine ⟨(y ++ ", ").data ++ a, b, ?_⟩
        simp [joinComma, string_data_append, hab, List.append_assoc]

theorem hasKey_loadKey_self (cache : KeyCache) (nodeId k : String) :
    hasKey (loadKey cache nodeId k) nodeId = true := by
  simp [hasKey, loadKey]

theorem getKey_loadKey_self (cache : KeyCache) (nodeId k : String) :
    getKey (loadKey cache nodeId k) nodeId = some k := by
  simp [getKey, loadKey, List.find?_cons]

theorem fireAndForget_network (r : Except LsError Unit) (log : EffLog) :
    (fireAndForget r log).network = log.network := by
  cases r <;> rfl

theorem walletTimeoutMsg_contains (statuses : List WalletStatus)
    (s : WalletStatus) (hs : s ∈ statuses) :
    ∃ a b, (walletTimeoutMsg statuses).data = a ++ s.toName.data ++ b := by
  rcases joinComma_contains (statuses.map WalletStatus.toName) s.toName
    (List.mem_map_of_mem WalletStatus.toName hs) with ⟨a, b, hab⟩
  refine ⟨"Timed out waiting for wallet status to be one of ".data ++ a,
    b ++ ".".data, ?_⟩
  unfold walletTimeoutMsg
  simp [string_data_append, hab, List.append_assoc]

theorem paymentTimeoutMsg_contains (s : TransactionStatus)
    (hs : s ∈ completionStatuses) :
    ∃ a b, paymentTimeoutMsg.data = a ++ s.toName.data ++ b := by
  rcases joinComma_contains (completionStatuses.map TransactionStatus.toName)
    s.toName (List.mem_map_of_mem TransactionStatus.toName hs) with ⟨a, b, hab⟩
  refine ⟨"Timed out waiting for payment status to be one of ".data ++ a,
    b ++ ".".data, ?_⟩
  unfold paymentTimeoutMsg
  simp [string_data_append, hab, List.append_assoc]

/-! ## Claim theorems -/

/-- C10: the wallet-sdk client uses the single fixed key-cache id
`"wallet_node_id"` everywhere: `loadWalletSigningKey` stores under it,
`isWalletUnlocked` queries exactly it, and every signing request carries
exactly it as `signingNodeId`; consequently after `loadWalletSigningKey(k)`
the wallet is unlocked. -/
theorem wallet_node_id_fixed_key (c : WalletClientState)
    (k inv dest addr pk : String) (fees amt sats tsecs : Int)
    (kt : KeyType) (am : Option Int) :
    LightsparkClient.loadWalletSigningKey c k =
      { c with nodeKeyCache := loadKey c.nodeKeyCache WALLET_NODE_ID_KEY k } ∧
    getKey (LightsparkClient.loadWalletSigningKey c k).nodeKeyCache
      WALLET_NODE_ID_KEY = some k ∧
    LightsparkClient.isWalletUnlocked c =
      hasKey c.nodeKeyCache WALLET_NODE_ID_KEY ∧
    LightsparkClient.isWalletUnlocked (LightsparkClient.loadWalletSigningKey c k)
      = true ∧
    (LightsparkClient.payInvoiceQuery inv fees am tsecs).signingNodeId =
      some WALLET_NODE_ID_KEY ∧
    (LightsparkClient.sendPaymentQuery dest amt fees tsecs).signingNodeId =
      some WALLET_NODE_ID_KEY ∧
    LightsparkClient.createBitcoinFundingAddressQuery.signingNodeId =
      some WALLET_NODE_ID_KEY ∧
    (LightsparkClient.requestWithdrawalQuery sats addr).signingNodeId =
      some WALLET_NODE_ID_KEY ∧
    (LightsparkClient.initializeWalletQuery kt pk).signingNodeId =
      some WALLET_NODE_ID_KEY ∧
    WALLET_NODE_ID_KEY = "wallet_node_id" :=
  ⟨rfl, getKey_loadKey_self c.nodeKeyCache WALLET_NODE_ID_KEY k, rfl,
   hasKey_loadKey_self c.nodeKeyCache WALLET_NODE_ID_KEY k, rfl, rfl, rfl, rfl,
   rfl, rfl⟩

/-- C8: `KeyInputFromJson` and `InvoiceDataFromJson` map an unknown enum
value to the `FUTURE_VALUE` sentinel, but `ApiTokenFromJson` maps an unknown
permission string to `undefined` (modelled `none`), an out-of-enum element,
instead of `Permission.FUTURE_VALUE`: the claim's universally-quantified
tolerance fails on the `permissions` field. -/
theorem api_token_unknown_permission_unmapped :
    (KeyInputFromJson (Json.obj [("key_input_type", .str "SOME_NEW_KEY_TYPE"),
        ("key_input_public_key", .str "pk")])).type = KeyType.FUTURE_VALUE ∧
    (InvoiceDataFromJson (Json.obj [("invoice_data_bitcoin_network",
        .str "SOME_NEW_NETWORK")])).bitcoinNetwork =
      BitcoinNetwork.FUTURE_VALUE ∧
    (ApiTokenFromJson (Json.obj [("api_token_id", .str "token1"),
        ("api_token_permissions",
          .arr [.str "ALL", .str "SOME_NEW_PERMISSION"])])).permissions =
      [some Permission.ALL, none] ∧
    (none : Option Permission) ≠ some Permission.FUTURE_VALUE :=
  ⟨rfl, rfl, rfl, by simp⟩

/-- C7: during `unlockWallet`, decrypted key bytes whose first byte is
`0x30` (decimal 48) are treated as DER and stored in the key cache as their
base64 re-encoding; any other byte sequence is decoded as UTF-8 text and
stored as PEM directly. -/
theorem der_pem_detection (st : LegacyClientState) (wid pw : String)
    (ek1 ek2 : EncryptedKey)
    (decrypt : String → String → String → Option (List Nat))
    (textDecode : List Nat → String) (bytesD bytesP : List Nat)
    (hd1 : decrypt ek1.cipher ek1.encryptedValue pw = some bytesD)
    (hd48 : bytesD.head? = some 48)
    (hd2 : decrypt ek2.cipher ek2.encryptedValue pw = some bytesP)
    (hnp : bytesP.head? ≠ some 48) :
    getKey (LightsparkWalletClient.unlockWallet st wid pw (some ek1) decrypt
      textDecode).2.nodeKeyCache wid = some (b64encode bytesD) ∧
    (LightsparkWalletClient.unlockWallet st wid pw (some ek1) decrypt
      textDecode).1 = .ok true ∧
    getKey (LightsparkWalletClient.unlockWallet st wid pw (some ek2) decrypt
      textDecode).2.nodeKeyCache wid = some (textDecode bytesP) := by
  refine ⟨?_, ?_, ?_⟩
  · simp [LightsparkWalletClient.unlockWallet, hd1, hd48, getKey_loadKey_self]
  · simp [LightsparkWalletClient.unlockWallet, hd1]
  · simp [LightsparkWalletClient.unlockWallet, hd2, hnp, getKey_loadKey_self]

/-- C7 witness: a DER blob `[48, 130, 1]` is stored base64-encoded as
`"MIIB"`; the PEM bytes `[45, 45]` are stored as the UTF-8 decoding. -/
theorem der_pem_detection_witness :
    (fun c (_ : String) (_ : String) => if c = "der" then some [48, 130, 1]
      else some [45, 45] : String → String → String → Option (List Nat))
        "der" "v" "pw" = some [48, 130, 1] ∧
    ([48, 130, 1] : List Nat).head? = some 48 ∧
    ([45, 45] : List Nat).head? ≠ some 48 ∧
    getKey (LightsparkWalletClient.unlockWallet ⟨[], none⟩ "w1" "pw"
      (some ⟨"v", "der"⟩)
      (fun c _ _ => if c = "der" then some [48, 130, 1] else some [45, 45])
      (fun _ => "PEMTEXT")).2.nodeKeyCache "w1" = some "MIIB" ∧
    getKey (LightsparkWalletClient.unlockWallet ⟨[], none⟩ "w1" "pw"
      (some ⟨"v", "pem"⟩)
      (fun c _ _ => if c = "der" then some [48, 130, 1] else some [45, 45])
      (fun _ => "PEMTEXT")).2.nodeKeyCache "w1" = some "PEMTEXT" := by
  have h := der_pem_detection ⟨[], none⟩ "w1" "pw" ⟨"v", "der"⟩ ⟨"v", "pem"⟩
    (fun c _ _ => if c = "der" then some [48, 130, 1] else some [45, 45])
    (fun _ => "PEMTEXT") [48, 130, 1] [45, 45] (by simp) rfl (by simp)
    (by simp)
  exact ⟨by simp, rfl, by simp, h.1, h.2.2⟩

/-- C9: `unlockWallet` is atomic: when it returns `false` (no encrypted key
recovered) or throws (decryption failed), the key cache and active wallet id
are unchanged; only the path returning `true` caches a key under the wallet
id and sets the active wallet id to it. -/
theorem unlock_wallet_atomicity (st : LegacyClientState) (wid pw : String)
    (ekf eks : EncryptedKey)
    (decrypt : String → String → String → Option (List Nat))
    (textDecode : List Nat → String) (bytes : List Nat)
    (hfail : decrypt ekf.cipher ekf.encryptedValue pw = none)
    (hok : decrypt eks.cipher eks.encryptedValue pw = some bytes) :
    LightsparkWalletClient.unlockWallet st wid pw none decrypt textDecode =
      (.ok false, st) ∧
    LightsparkWalletClient.unlockWallet st wid pw (some ekf) decrypt textDecode
      = (.error (.jsError
          "Unable to decrypt signing key with provided password. Please try again."),
         st) ∧
    (LightsparkWalletClient.unlockWallet st wid pw (some eks) decrypt
      textDecode).1 = .ok true ∧
    hasKey (LightsparkWalletClient.unlockWallet st wid pw (some eks) decrypt
      textDecode).2.nodeKeyCache wid = true ∧
    (LightsparkWalletClient.unlockWallet st wid pw (some eks) decrypt
      textDecode).2.activeWalletId = some wid := by
  refine ⟨rfl, ?_, ?_, ?_, ?_⟩
  · simp [LightsparkWalletClient.unlockWallet, hfail]
  · simp [LightsparkWalletClient.unlockWallet, hok]
  · simp [LightsparkWalletClient.unlockWallet, hok, hasKey_loadKey_self]
  · simp [LightsparkWalletClient.unlockWallet, hok]

/-- C9 witness: with no recovered key the state is unchanged; with a
decryptable key the cache gains the wallet id and it becomes active. -/
theorem unlock_wallet_atomicity_witness :
    (fun (c : String) (_ : String) (_ : String) =>
      if c = "bad" then (none : Option (List Nat)) else some [45])
        "bad" "v" "pw" = none ∧
    LightsparkWalletClient.unlockWallet ⟨[("other", "k")], some "other"⟩ "w1"
      "pw" none
      (fun c _ _ => if c = "bad" then none else some [45])
      (fun _ => "PEM") = (.ok false, ⟨[("other", "k")], some "other"⟩) ∧
    (LightsparkWalletClient.unlockWallet ⟨[("other", "k")], some "other"⟩ "w1"
      "pw" (some ⟨"v", "good"⟩)
      (fun c _ _ => if c = "bad" then none else some [45])
      (fun _ => "PEM")).2.activeWalletId = some "w1" := by
  have h := unlock_wallet_atomicity ⟨[("other", "k")], some "other"⟩ "w1" "pw"
    ⟨"v", "bad"⟩ ⟨"v", "good"⟩
    (fun c _ _ => if c = "bad" then none else some [45])
    (fun _ => "PEM") [45] (by simp) (by simp)
  exact ⟨by simp, h.1, h.2.2.2.2⟩

/-- C1: the stub auth provider reports `isAuthorized() = false`, but a query
method that requires authentication does NOT fail before network I/O:
`requireValidAuth` is `async` and invoked without `await`, so its
`LightsparkAuthException` only becomes an unhandled promise rejection while
the HTTP request is still issued (here shown for `deployWallet` and
`getWalletDashboard` under the default stub provider). -/
theorem stub_auth_query_still_sends_network_request :
    AuthProvider.isAuthorized .stub = false ∧
    ∀ (cache : KeyCache) (server : QueryReq → Except LsError Json)
      (numTx numPr : Int),
      (LightsparkClient.deployWallet ⟨.stub, cache⟩ server).2.network =
        [LightsparkClient.deployWalletQuery] ∧
      (LightsparkClient.deployWallet ⟨.stub, cache⟩ server).2.unhandled =
        [.authException "You must be logged in to perform this action."] ∧
      (LightsparkClient.getWalletDashboard ⟨.stub, cache⟩ server numTx
        numPr).2.network =
        [LightsparkClient.walletDashboardQuery numTx numPr] ∧
      (LightsparkClient.getWalletDashboard ⟨.stub, cache⟩ server numTx
        numPr).2.unhandled =
        [.authException "You must be logged in to perform this action."] :=
  ⟨rfl, fun _ _ _ _ => ⟨rfl, rfl, rfl, rfl⟩⟩

/-- C2: every request carrying a `signingNodeId` is preceded by a check that
the key cache holds a key for that id: the wallet-sdk guard
`requireWalletUnlocked` throws `LightsparkAuthException` synchronously and no
request is recorded (`payInvoice`, `sendPayment`,
`createBitcoinFundingAddress`, `requestWithdrawal`); the Requester's own
check rejects a signed request without a cached key before sending;
`initializeWallet` loads the signing key first, so its signed request
executes with the key present; and the legacy client's `payInvoice` throws
before any network call when the wallet key is absent. -/
theorem signing_key_required_before_send (c : WalletClientState)
    (server : QueryReq → Except LsError Json) (st : LegacyClientState)
    (lserver : LightsparkWalletClient.LegacyMutation → Json)
    (wid inv dest addr pk sk : String) (fees amt sats tsecs : Int)
    (kt : KeyType) (am : Option Int) (q : QueryReq) (nid : String)
    (log : EffLog)
    (hkey : hasKey c.nodeKeyCache WALLET_NODE_ID_KEY = false)
    (hwid : st.activeWalletId = some wid)
    (hlkey : hasKey st.nodeKeyCache wid = false)
    (hq : q.signingNodeId = some nid)
    (hnk : hasKey c.nodeKeyCache nid = false) :
    (LightsparkClient.payInvoice c server inv fees am tsecs).1 =
      .error (.authException
        "You must unlock the wallet before performing this action.") ∧
    (LightsparkClient.payInvoice c server inv fees am tsecs).2.network = [] ∧
    (LightsparkClient.sendPayment c server dest amt fees tsecs).1 =
      .error (.authException
        "You must unlock the wallet before performing this action.") ∧
    (LightsparkClient.sendPayment c server dest amt fees tsecs).2.network = [] ∧
    (LightsparkClient.createBitcoinFundingAddress c server).1 =
      .error (.authException
        "You must unlock the wallet before performing this action.") ∧
    (LightsparkClient.createBitcoinFundingAddress c server).2.network = [] ∧
    (LightsparkClient.requestWithdrawal c server sats addr).1 =
      .error (.authException
        "You must unlock the wallet before performing this action.") ∧
    (LightsparkClient.requestWithdrawal c server sats addr).2.network = [] ∧
    (executeQuery c.nodeKeyCache q server log).1 =
      .error (.authException
        "Request requires a signing key but none was found in the key cache.") ∧
    (executeQuery c.nodeKeyCache q server log).2.network = log.network ∧
    hasKey (LightsparkClient.initializeWallet c server kt pk
      sk).1.2.nodeKeyCache WALLET_NODE_ID_KEY = true ∧
    (LightsparkClient.initializeWallet c server kt pk sk).2.network =
      [LightsparkClient.initializeWalletQuery kt pk] ∧
    (LightsparkWalletClient.payInvoice st lserver inv).1 =
      .error (.jsError "Wallet is not unlocked") ∧
    (LightsparkWalletClient.payInvoice st lserver inv).2 = [] := by
  have hru : LightsparkClient.requireWalletUnlocked c = .error (.authException
      "You must unlock the wallet before performing this action.") := by
    simp [LightsparkClient.requireWalletUnlocked,
      LightsparkClient.isWalletUnlocked, hkey]
  refine ⟨?_, ?_, ?_, ?_, ?_, ?_, ?_, ?_, ?_, ?_, ?_, ?_, ?_, ?_⟩
  · simp [LightsparkClient.payInvoice, hru]
  · simp [LightsparkClient.payInvoice, hru, fireAndForget_network, emptyLog]
  · simp [LightsparkClient.sendPayment, hru]
  · simp [LightsparkClient.sendPayment, hru, fireAndForget_network, emptyLog]
  · simp [LightsparkClient.createBitcoinFundingAddress, hru]
  · simp [LightsparkClient.createBitcoinFundingAddress, hru,
      fireAndForget_network, emptyLog]
  · simp [LightsparkClient.requestWithdrawal, hru]
  · simp [LightsparkClient.requestWithdrawal, hru, fireAndForget_network,
      emptyLog]
  · simp [executeQuery, hq, hnk]
  · simp [executeQuery, hq, hnk]
  · simp [LightsparkClient.initializeWallet,
      LightsparkClient.loadWalletSigningKey, hasKey_loadKey_self]
  · simp [LightsparkClient.initializeWallet,
      LightsparkClient.loadWalletSigningKey, executeQuery,
      LightsparkClient.initializeWalletQuery, hasKey_loadKey_self,
      fireAndForget_network, emptyLog]
  · simp [LightsparkWalletClient.payInvoice,
      LightsparkWalletClient.requireWalletId, hwid, hlkey]
  · simp [LightsparkWalletClient.payInvoice,
      LightsparkWalletClient.requireWalletId, hwid, hlkey]

/-- C2 witness: a locked client (empty key cache) rejects `payInvoice` with
the auth exception and sends nothing; the legacy client likewise. -/
theorem signing_key_required_before_send_witness :
    hasKey ([] : KeyCache) WALLET_NODE_ID_KEY = false ∧
    (LightsparkClient.payInvoice ⟨.stub, []⟩ (fun _ => .ok .null) "inv" 10
      (some 5) 60).1 =
      .error (.authException
        "You must unlock the wallet before performing this action.") ∧
    (LightsparkClient.payInvoice ⟨.stub, []⟩ (fun _ => .ok .null) "inv" 10
      (some 5) 60).2.network = [] ∧
    (LightsparkWalletClient.payInvoice ⟨[], some "w"⟩ (fun _ => .null)
      "inv").1 = .error (.jsError "Wallet is not unlocked") := by
  have h := signing_key_required_before_send ⟨.stub, []⟩ (fun _ => .ok .null)
    ⟨[], some "w"⟩ (fun _ => .null) "w" "inv" "dest" "addr" "pk" "sk" 10 5 7
    60 .RSA_OAEP (some 5)
    (LightsparkClient.payInvoiceQuery "inv" 10 (some 5) 60) WALLET_NODE_ID_KEY
    emptyLog rfl rfl rfl rfl rfl
  exact ⟨rfl, h.1, h.2.1, h.2.2.2.2.2.2.2.2.2.2.2.2.1⟩

/-- C3: a status-await coordinator instance settles exactly one of the four
outcomes, exactly once (the settlement log has length 1 whenever the
timeout timer is in the trace), and when the subscription pushes several
terminal-eligible states in succession the promise resolves exactly once
with the first of them. -/
theorem coordinator_settles_exactly_once
    (payment p2 : OutgoingPayment)
    (events pre post : List (CoordEvent OutgoingPayment))
    (statuses : List WalletStatus) (wevents : List (CoordEvent WalletStatus))
    (hpend : paymentIsTerminal payment = false)
    (htm : CoordEvent.timeoutFire ∈ events)
    (hpre : ∀ ev ∈ pre, paymentEvSettle ev = none)
    (hterm : paymentIsTerminal p2 = true)
    (hwtm : CoordEvent.timeoutFire ∈ wevents) :
    (paymentCoord events).log.length = 1 ∧
    (walletCoord statuses wevents).log.length = 1 ∧
    (paymentCoord (pre ++ CoordEvent.sub (SubEvent.next p2) :: post)).log
      = [Outcome.resolved p2] ∧
    (awaitPaymentResult payment
      (pre ++ CoordEvent.sub (SubEvent.next p2) :: post)).outcome
      = some (Outcome.resolved p2) := by
  have hfirst := runCoord_first_settlement paymentIsTerminal
    paymentAwaitCompleteError paymentAwaitTimeoutError pre post
    (CoordEvent.sub (SubEvent.next p2)) (Outcome.resolved p2)
    (fun e he => hpre e he) (by simp [evSettle, hterm])
  refine ⟨?_, ?_, ?_, ?_⟩
  · exact runCoord_log_length_one _ _ _ events htm
  · exact runCoord_log_length_one _ _ _ wevents hwtm
  · show (runCoord paymentIsTerminal paymentAwaitCompleteError
      paymentAwaitTimeoutError
      (pre ++ CoordEvent.sub (SubEvent.next p2) :: post)).log = _
    rw [hfirst]
  · have hx : awaitPaymentResult payment
        (pre ++ CoordEvent.sub (SubEvent.next p2) :: post) =
        subscribeRun paymentIsTerminal paymentAwaitCompleteError
          paymentAwaitTimeoutError
          (pre ++ CoordEvent.sub (SubEvent.next p2) :: post) := by
      simp [awaitPaymentResult, hpend]
    rw [hx]
    show (runCoord paymentIsTerminal paymentAwaitCompleteError
      paymentAwaitTimeoutError
      (pre ++ CoordEvent.sub (SubEvent.next p2) :: post)).settled = _
    rw [hfirst]

/-- C3 witness: with one pending push, then `SUCCESS`, then `FAILED`, then
the timer, the coordinator resolves once with the `SUCCESS` payment. -/
theorem coordinator_settles_exactly_once_witness :
    CoordEvent.timeoutFire ∈
      ([CoordEvent.timeoutFire] : List (CoordEvent OutgoingPayment)) ∧
    (paymentCoord [CoordEvent.timeoutFire]).log.length = 1 ∧
    (awaitPaymentResult ⟨"p", .PENDING⟩
      ([CoordEvent.sub (SubEvent.next ⟨"p", .PENDING⟩)] ++
        CoordEvent.sub (SubEvent.next ⟨"p", .SUCCESS⟩) ::
        [CoordEvent.sub (SubEvent.next ⟨"p", .FAILED⟩),
         CoordEvent.timeoutFire])).outcome
      = some (Outcome.resolved ⟨"p", .SUCCESS⟩) := by
  have h := coordinator_settles_exactly_once ⟨"p", .PENDING⟩ ⟨"p", .SUCCESS⟩
    [CoordEvent.timeoutFire] [CoordEvent.sub (SubEvent.next ⟨"p", .PENDING⟩)]
    [CoordEvent.sub (SubEvent.next ⟨"p", .FAILED⟩), CoordEvent.timeoutFire]
    [WalletStatus.DEPLOYED, WalletStatus.FAILED] [CoordEvent.timeoutFire]
    (by decide) (List.mem_singleton.mpr rfl)
    (by intro ev hev; rcases List.mem_singleton.mp hev with rfl; rfl)
    (by decide) (List.mem_singleton.mpr rfl)
  exact ⟨List.mem_singleton.mpr rfl, h.1, h.2.2.2⟩

/-- C4: when the currently known state is already terminal, the coordinator
resolves immediately with it and the underlying subscribe function is never
invoked: `awaitPaymentResult` with a completed payment,
`deployWalletAndAwaitDeployed` with a `DEPLOYED`/`FAILED` wallet, and
`initializeWalletAndAwaitReady` with a `READY`/`FAILED` wallet. -/
theorem already_terminal_skips_subscribe
    (payment : OutgoingPayment) (events : List (CoordEvent OutgoingPayment))
    (w v : Wallet) (wev vev : List (CoordEvent WalletStatus))
    (hp : paymentIsTerminal payment = true)
    (hw : w.status = WalletStatus.DEPLOYED ∨ w.status = WalletStatus.FAILED)
    (hv : v.status = WalletStatus.READY ∨ v.status = WalletStatus.FAILED) :
    awaitPaymentResult payment events =
      { outcome := some (Outcome.resolved payment), subscribed := false,
        cleanups := [] } ∧
    (awaitPaymentResult payment events).subscribed = false ∧
    deployWalletAndAwaitDeployed (some w) wev =
      { outcome := some (Outcome.resolved w.status), subscribed := false,
        cleanups := [] } ∧
    initializeWalletAndAwaitReady (some v) vev =
      { outcome := some (Outcome.resolved v.status), subscribed := false,
        cleanups := [] } := by
  refine ⟨?_, ?_, ?_, ?_⟩
  · simp [awaitPaymentResult, hp]
  · simp [awaitPaymentResult, hp]
  · simp only [deployWalletAndAwaitDeployed]
    rw [if_pos hw]
  · simp only [initializeWalletAndAwaitReady]
    rw [if_pos hv]

/-- C4 witness: a `SUCCESS` payment, a `DEPLOYED` wallet and a `READY`
wallet resolve immediately with `subscribed = false`. -/
theorem already_terminal_skips_subscribe_witness :
    paymentIsTerminal ⟨"p1", .SUCCESS⟩ = true ∧
    (awaitPaymentResult ⟨"p1", .SUCCESS⟩ [CoordEvent.timeoutFire]).subscribed
      = false ∧
    deployWalletAndAwaitDeployed (some ⟨"w1", .DEPLOYED⟩) [] =
      { outcome := some (Outcome.resolved WalletStatus.DEPLOYED),
        subscribed := false, cleanups := [] } ∧
    initializeWalletAndAwaitReady (some ⟨"w1", .READY⟩) [] =
      { outcome := some (Outcome.resolved WalletStatus.READY),
        subscribed := false, cleanups := [] } := by
  have h := already_terminal_skips_subscribe ⟨"p1", .SUCCESS⟩
    [CoordEvent.timeoutFire] ⟨"w1", .DEPLOYED⟩ ⟨"w1", .READY⟩ [] []
    (by decide) (Or.inl rfl) (Or.inl rfl)
  exact ⟨by decide, h.2.1, h.2.2.1, h.2.2.2⟩

/-- C5: on every exit path of a subscribing coordinator instance the
`finally` handler runs exactly once, clearing the timer and unsubscribing
exactly once each: the cleanup list is exactly
`[clearTimer, unsubscribe]`. -/
theorem coordinator_cleanup_on_every_exit
    (payment : OutgoingPayment) (events : List (CoordEvent OutgoingPayment))
    (statuses : List WalletStatus) (wevents : List (CoordEvent WalletStatus))
    (hpend : paymentIsTerminal payment = false)
    (htm : CoordEvent.timeoutFire ∈ events)
    (hwtm : CoordEvent.timeoutFire ∈ wevents) :
    (awaitPaymentResult payment events).subscribed = true ∧
    (awaitPaymentResult payment events).cleanups =
      [CleanupAct.clearTimer, CleanupAct.unsubscribe] ∧
    (waitForWalletStatus statuses wevents).cleanups =
      [CleanupAct.clearTimer, CleanupAct.unsubscribe] := by
  rcases Option.isSome_iff_exists.mp (runCoord_isSome_of_timeout
    paymentIsTerminal paymentAwaitCompleteError paymentAwaitTimeoutError
    events htm) with ⟨o, ho⟩
  have hlog := runCoord_log_eq_settled paymentIsTerminal
    paymentAwaitCompleteError paymentAwaitTimeoutError events
  rw [ho] at hlog
  rcases Option.isSome_iff_exists.mp (runCoord_isSome_of_timeout
    (walletIsTerminal statuses) walletAwaitCompleteError
    (walletTimeoutError statuses) wevents hwtm) with ⟨o2, ho2⟩
  have hlog2 := runCoord_log_eq_settled (walletIsTerminal statuses)
    walletAwaitCompleteError (walletTimeoutError statuses) wevents
  rw [ho2] at hlog2
  refine ⟨?_, ?_, ?_⟩
  · simp [awaitPaymentResult, hpend, subscribeRun]
  · simp [awaitPaymentResult, hpend, subscribeRun, hlog]
  · simp [waitForWalletStatus, subscribeRun, hlog2]

/-- C5 witness: a subscription transport error and a plain timeout each tear
down exactly one timer and one subscription. -/
theorem coordinator_cleanup_on_every_exit_witness :
    paymentIsTerminal ⟨"p", .PENDING⟩ = false ∧
    (awaitPaymentResult ⟨"p", .PENDING⟩
      [CoordEvent.sub (SubEvent.err (.otherError "boom")),
       CoordEvent.timeoutFire]).cleanups =
      [CleanupAct.clearTimer, CleanupAct.unsubscribe] ∧
    (waitForWalletStatus [WalletStatus.DEPLOYED, WalletStatus.FAILED]
      [CoordEvent.timeoutFire]).cleanups =
      [CleanupAct.clearTimer, CleanupAct.unsubscribe] := by
  have h := coordinator_cleanup_on_every_exit ⟨"p", .PENDING⟩
    [CoordEvent.sub (SubEvent.err (.otherError "boom")),
     CoordEvent.timeoutFire]
    [WalletStatus.DEPLOYED, WalletStatus.FAILED] [CoordEvent.timeoutFire]
    (by decide) (by simp) (List.mem_singleton.mpr rfl)
  exact ⟨by decide, h.2.1, h.2.2⟩

/-- C6: a subscribing coordinator whose trace has no terminal push before
the timer fires rejects with the timeout `LightsparkException`, whose
message names every expected terminal state; completion without a terminal
state rejects with the await `LightsparkException`; a subscription error is
propagated as-is. -/
theorem coordinator_failure_modes
    (statuses : List WalletStatus) (s : WalletStatus)
    (pre1 post1 pre2 post2 pre3 post3 : List (CoordEvent WalletStatus))
    (e : LsError) (payment : OutgoingPayment)
    (pre4 post4 : List (CoordEvent OutgoingPayment)) (t : TransactionStatus)
    (hs : s ∈ statuses)
    (h1 : ∀ ev ∈ pre1, walletEvSettle statuses ev = none)
    (h2 : ∀ ev ∈ pre2, walletEvSettle statuses ev = none)
    (h3 : ∀ ev ∈ pre3, walletEvSettle statuses ev = none)
    (hpend : paymentIsTerminal payment = false)
    (h4 : ∀ ev ∈ pre4, paymentEvSettle ev = none)
    (ht : t ∈ completionStatuses) :
    (waitForWalletStatus statuses
      (pre1 ++ CoordEvent.timeoutFire :: post1)).outcome
      = some (Outcome.rejected (walletTimeoutError statuses)) ∧
    walletTimeoutError statuses =
      .lsException "WalletStatusAwaitError" (walletTimeoutMsg statuses) ∧
    (∃ a b, (walletTimeoutMsg statuses).data = a ++ s.toName.data ++ b) ∧
    (waitForWalletStatus statuses
      (pre2 ++ CoordEvent.sub SubEvent.complete :: post2)).outcome
      = some (Outcome.rejected walletAwaitCompleteError) ∧
    (waitForWalletStatus statuses
      (pre3 ++ CoordEvent.sub (SubEvent.err e) :: post3)).outcome
      = some (Outcome.rejected e) ∧
    (awaitPaymentResult payment
      (pre4 ++ CoordEvent.timeoutFire :: post4)).outcome
      = some (Outcome.rejected paymentAwaitTimeoutError) ∧
    paymentAwaitTimeoutError =
      .lsException "PaymentStatusAwaitError" paymentTimeoutMsg ∧
    (∃ a b, paymentTimeoutMsg.data = a ++ t.toName.data ++ b) := by
  have w1 := runCoord_first_settlement (walletIsTerminal statuses)
    walletAwaitCompleteError (walletTimeoutError statuses) pre1 post1
    CoordEvent.timeoutFire (Outcome.rejected (walletTimeoutError statuses))
    (fun ev hev => h1 ev hev) rfl
  have w2 := runCoord_first_settlement (walletIsTerminal statuses)
    walletAwaitCompleteError (walletTimeoutError statuses) pre2 post2
    (CoordEvent.sub SubEvent.complete)
    (Outcome.rejected walletAwaitCompleteError)
    (fun ev hev => h2 ev hev) rfl
  have w3 := runCoord_first_settlement (walletIsTerminal statuses)
    walletAwaitCompleteError (walletTimeoutError statuses) pre3 post3
    (CoordEvent.sub (SubEvent.err e)) (Outcome.rejected e)
    (fun ev hev => h3 ev hev) rfl
  have p1 := runCoord_first_settlement paymentIsTerminal
    paymentAwaitCompleteError paymentAwaitTimeoutError pre4 post4
    CoordEvent.timeoutFire (Outcome.rejected paymentAwaitTimeoutError)
    (fun ev hev => h4 ev hev) rfl
  refine ⟨?_, rfl, walletTimeoutMsg_contains statuses s hs, ?_, ?_, ?_, rfl,
    paymentTimeoutMsg_contains t ht⟩
  · show (runCoord (walletIsTerminal statuses) walletAwaitCompleteError
      (walletTimeoutError statuses)
      (pre1 ++ CoordEvent.timeoutFire :: post1)).settled = _
    rw [w1]
  · show (runCoord (walletIsTerminal statuses) walletAwaitCompleteError
      (walletTimeoutError statuses)
      (pre2 ++ CoordEvent.sub SubEvent.complete :: post2)).settled = _
    rw [w2]
  · show (runCoord (walletIsTerminal statuses) walletAwaitCompleteError
      (walletTimeoutError statuses)
      (pre3 ++ CoordEvent.sub (SubEvent.err e) :: post3)).settled = _
    rw [w3]
  · have hx : awaitPaymentResult payment
        (pre4 ++ CoordEvent.timeoutFire :: post4) =
        subscribeRun paymentIsTerminal paymentAwaitCompleteError
          paymentAwaitTimeoutError
          (pre4 ++ CoordEvent.timeoutFire :: post4) := by
      simp [awaitPaymentResult, hpend]
    rw [hx]
    show (runCoord paymentIsTerminal paymentAwaitCompleteError
      paymentAwaitTimeoutError
      (pre4 ++ CoordEvent.timeoutFire :: post4)).settled = _
    rw [p1]

/-- C6 witness: for the `[DEPLOYED, FAILED]` wallet wait, a non-terminal
push followed by the timer rejects with the timeout exception naming
`DEPLOYED`; completion rejects with the await error; a transport error
propagates as-is; the payment timeout message names `SUCCESS`. -/
theorem coordinator_failure_modes_witness :
    WalletStatus.DEPLOYED ∈ [WalletStatus.DEPLOYED, WalletStatus.FAILED] ∧
    (waitForWalletStatus [WalletStatus.DEPLOYED, WalletStatus.FAILED]
      ([CoordEvent.sub (SubEvent.next WalletStatus.DEPLOYING)] ++
        CoordEvent.timeoutFire :: [])).outcome
      = some (Outcome.rejected
          (walletTimeoutError [WalletStatus.DEPLOYED, WalletStatus.FAILED])) ∧
    (waitForWalletStatus [WalletStatus.DEPLOYED, WalletStatus.FAILED]
      ([] ++ CoordEvent.sub (SubEvent.err (.otherError "transport")) ::
        [])).outcome
      = some (Outcome.rejected (.otherError "transport")) ∧
    walletTimeoutMsg [WalletStatus.DEPLOYED, WalletStatus.FAILED] =
      "Timed out waiting for wallet status to be one of DEPLOYED, FAILED." := by
  have h := coordinator_failure_modes
    [WalletStatus.DEPLOYED, WalletStatus.FAILED] WalletStatus.DEPLOYED
    [CoordEvent.sub (SubEvent.next WalletStatus.DEPLOYING)] [] [] [] [] []
    (.otherError "transport") ⟨"p", .PENDING⟩ [] [] TransactionStatus.SUCCESS
    (by simp)
    (by intro ev hev; rcases List.mem_singleton.mp hev with rfl; rfl)
    (by intro ev hev; simp at hev)
    (by intro ev hev; simp at hev)
    (by decide)
    (by intro ev hev; simp at hev)
    (by simp [completionStatuses])
  exact ⟨by simp, h.1, h.2.2.2.2.1, rfl⟩
